import Mathlib

/-!
Verification of the push-up repetition-detection engine.

This file shallowly embeds the core of the repository (the geometry
utilities, position gate, signal smoother, rep state machine and session
controller found in `src/src/components/PoseCounter.tsx`, identical to
`src/unnamed/part_001`) and proves or refutes the frozen claims about it.

Modelling conventions:
* JavaScript IEEE-754 numbers are idealised as exact arithmetic: the
  threshold/streak state machine is embedded over `ℚ` so every claim can be
  evaluated on concrete inputs, while the trigonometric geometry
  (`Math.atan2`) is embedded over `ℝ` (via `Complex.arg`, which is exactly
  the mathematical atan2).
* MediaPipe delivers 33 landmarks per frame; a frame is modelled as a total
  function `ℕ → Landmark α`.
* The mutable refs of the component (`countRef`, `stageRef`, `bodyReadyRef`,
  `bodyReadyFrames`, `lastRepTime`, `smoothAngle`, `badFrameCount`) form the
  session state; each `onResults` callback invocation is the pure transition
  `processFrame`.  Canvas drawing, status text and audio are presentation
  side effects with no bearing on the state and are omitted.
* The spec names map to source fields as: phase Locked ↔ `bodyReady = true`,
  `lockFrameStreak` ↔ `bodyReadyFrames`, `badFrameStreak` ↔ `badFrameCount`,
  `repCount` ↔ `count`, `lastRepTimestamp` ↔ `lastRepTime`.
-/

namespace Pushup

/-- `type Landmark = { x: number; y: number; visibility?: number }`
(PoseCounter.tsx line 217), parametrised over the number type. -/
structure Landmark (α : Type) where
  x : α
  y : α
  visibility : Option α
deriving DecidableEq, Repr

/-- `lm.visibility ?? 0` — the nullish-coalescing default used by
`isVisible` (line 226). -/
def visibilityValue {α : Type} [Zero α] (lm : Landmark α) : α :=
  lm.visibility.getD 0

/-- `const isVisible = (lm, threshold = 0.35) => (lm.visibility ?? 0) > threshold`
(line 226). -/
def isVisible {α : Type} [LinearOrderedField α] (lm : Landmark α)
    (threshold : α := 35/100) : Bool :=
  decide (visibilityValue lm > threshold)

/-- A frame of MediaPipe pose landmarks, indexed by the `LM` joint indices
(lines 228–235): 11 = left shoulder, 12 = right shoulder, 13 = left elbow,
14 = right elbow, 15 = left wrist, 16 = right wrist, 23 = left hip,
24 = right hip. -/
abbrev Frame (α : Type) := ℕ → Landmark α

/-- The Position Gate rejection reasons of spec §4.2, standing for the
source's status strings at lines 661, 670, 681, 692:
`incompleteBody` ↔ "Can\x27t see full body", `notHorizontal` ↔
"Body not horizontal", `handsTooHigh` ↔ "Hands too high", `standing` ↔
"You\x27re standing". -/
inductive GateReason where
  | incompleteBody
  | notHorizontal
  | handsTooHigh
  | standing
deriving DecidableEq, Repr

/-- Result record `{ ok: bool; reason: string }` of `isInPushupPosition`,
with the reason string abstracted to `Option GateReason` (`none` on the
`ok` path, whose reason string is empty). -/
structure PosCheck where
  ok : Bool
  reason : Option GateReason
deriving DecidableEq, Repr

/-- `isInPushupPosition` (PoseCounter.tsx lines 654–696), translated
check-for-check.  `requiredParts` is the source's literal list
`[LEFT_SHOULDER, RIGHT_SHOULDER, LEFT_ELBOW, LEFT_WRIST, LEFT_HIP,
RIGHT_HIP]` = `[11, 12, 13, 15, 23, 24]` — note that it contains the LEFT
elbow and LEFT wrist only. -/
def isInPushupPosition {α : Type} [LinearOrderedField α] (landmarks : Frame α) :
    PosCheck :=
  if ¬ ([11, 12, 13, 15, 23, 24].all fun i => isVisible (landmarks i)) then
    { ok := false, reason := some GateReason.incompleteBody }
  else
    let shoulderY := ((landmarks 11).y + (landmarks 12).y) / 2
    let hipY := ((landmarks 23).y + (landmarks 24).y) / 2
    if |shoulderY - hipY| > 35/100 then
      { ok := false, reason := some GateReason.notHorizontal }
    else
      let wristY := ((landmarks 15).y + (landmarks 16).y) / 2
      if shoulderY - wristY > 25/100 then
        { ok := false, reason := some GateReason.handsTooHigh }
      else
        let shoulderX := ((landmarks 11).x + (landmarks 12).x) / 2
        let hipX := ((landmarks 23).x + (landmarks 24).x) / 2
        if |shoulderX - hipX| < 3/100 ∧ |shoulderY - hipY| > 1/10 then
          { ok := false, reason := some GateReason.standing }
        else
          { ok := true, reason := none }

/-- `stageRef.current : "UP" | "DOWN"` (line 492). -/
inductive Stage where
  | up
  | down
deriving DecidableEq, Repr

/-- The mutable refs of the component that the frame callback reads and
writes (lines 491–499): `countRef`, `stageRef`, `bodyReadyRef`,
`bodyReadyFrames`, `lastRepTime` (ms), `smoothAngle`, `badFrameCount`. -/
structure SessionState where
  count : ℕ
  stage : Stage
  bodyReady : Bool
  bodyReadyFrames : ℕ
  lastRepTime : ℤ
  smoothAngle : ℚ
  badFrameCount : ℕ
deriving DecidableEq, Repr

/-- `BODY_READY_THRESHOLD = 5` (line 502). -/
def BODY_READY_THRESHOLD : ℕ := 5

/-- `REP_COOLDOWN_MS = 150` (line 503). -/
def REP_COOLDOWN_MS : ℤ := 150

/-- `DOWN_ANGLE = 110` (line 504). -/
def DOWN_ANGLE : ℚ := 110

/-- `UP_ANGLE = 145` (line 505). -/
def UP_ANGLE : ℚ := 145

/-- `SMOOTH_FACTOR = 0.6` (line 506). -/
def SMOOTH_FACTOR : ℚ := 6/10

/-- `BAD_FRAME_TOLERANCE = 5` (line 507). -/
def BAD_FRAME_TOLERANCE : ℕ := 5

/-- The state after `startWorkout` resets the refs (lines 520–526):
count 0, stage UP, not locked, streaks zeroed, smoother seeded to 160. -/
def initialState : SessionState :=
  { count := 0, stage := Stage.up, bodyReady := false, bodyReadyFrames := 0,
    lastRepTime := 0, smoothAngle := 160, badFrameCount := 0 }

/-- The rep state machine of `onResults` lines 839–864, acting on the
already-smoothed angle: the `angle < DOWN_ANGLE` branch sets the stage to
DOWN (the inner `!== "DOWN"` test only gates the status text, so the
assignment is modelled unconditionally); the `angle > UP_ANGLE` branch,
evaluated against the possibly-updated stage, transitions to UP and counts
only when `now - lastRepTime > REP_COOLDOWN_MS`. -/
def repStep (s : SessionState) (angle : ℚ) (now : ℤ) : SessionState :=
  let s1 := if angle < DOWN_ANGLE then { s with stage := Stage.down } else s
  if angle > UP_ANGLE ∧ s1.stage = Stage.down then
    if now - s1.lastRepTime > REP_COOLDOWN_MS then
      { s1 with stage := Stage.up, count := s1.count + 1, lastRepTime := now }
    else s1
  else s1

/-- The counting tail of the locked path (lines 823–864): a frame with no
usable raw angle returns without touching the smoother (line 825); otherwise
`smoothAngle = SMOOTH_FACTOR * smoothAngle + (1 - SMOOTH_FACTOR) * rawAngle`
(line 827) and the rep state machine runs on the new smoothed value. -/
def lockedCount (s : SessionState) (rawAngle : Option ℚ) (now : ℤ) :
    SessionState :=
  match rawAngle with
  | none => s
  | some raw =>
      let s2 := { s with
        smoothAngle := SMOOTH_FACTOR * s.smoothAngle + (1 - SMOOTH_FACTOR) * raw }
      repStep s2 s2.smoothAngle now

/-- One frame delivered to `onResults`.  `missing` is the
`!results.poseLandmarks` case; `present` carries the two frame-derived
inputs the state machine consumes — `posOk = isInPushupPosition(landmarks).ok`
and `rawAngle = getElbowAngle(landmarks)` — plus the `Date.now()` timestamp. -/
inductive FrameInput where
  | missing (now : ℤ)
  | present (posOk : Bool) (rawAngle : Option ℚ) (now : ℤ)
deriving DecidableEq, Repr

/-- `onResults` (lines 719–864) as a pure state transition, with the canvas
drawing and status/audio side effects dropped.

* Missing landmarks (lines 731–736): if locked, `bodyReadyFrames = 0`,
  nothing else; return.
* Not yet locked (lines 788–806): a passing frame increments
  `bodyReadyFrames` and locks at `BODY_READY_THRESHOLD`, setting stage UP
  and reseeding the smoother to 160; a failing frame does
  `Math.max(0, bodyReadyFrames - 1)` (truncated `ℕ` subtraction).
* Locked (lines 808–864): a failing frame increments `badFrameCount` and
  returns early once it reaches `BAD_FRAME_TOLERANCE`; a passing frame
  zeroes `badFrameCount`; then the counting tail runs. -/
def processFrame (s : SessionState) (f : FrameInput) : SessionState :=
  match f with
  | FrameInput.missing _ =>
      if s.bodyReady then { s with bodyReadyFrames := 0 } else s
  | FrameInput.present posOk rawAngle now =>
      if s.bodyReady = false then
        if posOk then
          if s.bodyReadyFrames + 1 ≥ BODY_READY_THRESHOLD then
            { s with bodyReadyFrames := s.bodyReadyFrames + 1,
                     bodyReady := true, stage := Stage.up, smoothAngle := 160 }
          else
            { s with bodyReadyFrames := s.bodyReadyFrames + 1 }
        else
          { s with bodyReadyFrames := s.bodyReadyFrames - 1 }
      else
        if posOk = false then
          if s.badFrameCount + 1 ≥ BAD_FRAME_TOLERANCE then
            { s with badFrameCount := s.badFrameCount + 1 }
          else
            lockedCount { s with badFrameCount := s.badFrameCount + 1 }
              rawAngle now
        else
          lockedCount { s with badFrameCount := 0 } rawAngle now

/-- Folding the session controller over a frame stream. -/
def runFrames (s : SessionState) (fs : List FrameInput) : SessionState :=
  fs.foldl processFrame s

/-- Folding the rep state machine over a stream of (smoothed angle,
timestamp) samples. -/
def runReps (s : SessionState) (fs : List (ℚ × ℤ)) : SessionState :=
  fs.foldl (fun st p => repStep st p.1 p.2) s

/-- A locked session that is currently in the DOWN stage with its last
counted rep at time 0 (used to exercise the cooldown branch). -/
def c1State : SessionState :=
  { count := 3, stage := Stage.down, bodyReady := true, bodyReadyFrames := 5,
    lastRepTime := 0, smoothAngle := 160, badFrameCount := 0 }

/-- A locked session mid-workout with a nonzero bad-frame streak (used to
exercise the missing-landmarks branch). -/
def c2State : SessionState :=
  { count := 1, stage := Stage.up, bodyReady := true, bodyReadyFrames := 5,
    lastRepTime := 0, smoothAngle := 150, badFrameCount := 2 }

/-- A freshly locked session, as produced right after lock-in. -/
def c4Start : SessionState :=
  { count := 0, stage := Stage.up, bodyReady := true, bodyReadyFrames := 5,
    lastRepTime := 0, smoothAngle := 160, badFrameCount := 0 }

/-- The spec §8 scenario: smoothed angles [160,150,120,95,100,140,150,160],
timestamps spaced 1000 ms apart so the 150 ms cooldown is never violated. -/
def c4Samples : List (ℚ × ℤ) :=
  [(160, 1000), (150, 2000), (120, 3000), (95, 4000), (100, 5000),
   (140, 6000), (150, 7000), (160, 8000)]

/-- JS `Math.atan2(y, x)`, idealised over the reals: the argument of the
complex number `x + y*I`, valued in `(-π, π]` (`Complex.arg` is exactly the
two-argument arctangent). -/
noncomputable def atan2 (y x : ℝ) : ℝ := Complex.arg ⟨x, y⟩

/-- `calcAngle` (PoseCounter.tsx lines 219–224): the absolute difference of
the atan2 bearings of `b→c` and `b→a`, converted to degrees and folded into
`[0, 180]` by subtracting from 360 when above 180. -/
noncomputable def calcAngle (a b c : Landmark ℝ) : ℝ :=
  let rad := atan2 (c.y - b.y) (c.x - b.x) - atan2 (a.y - b.y) (a.x - b.x)
  let deg := |rad * 180 / Real.pi|
  if deg > 180 then 360 - deg else deg

/-- `getElbowAngle` (lines 698–717): the mean of the two arm angles when
both arm chains (shoulder, elbow, wrist) are visible, the single visible
side's angle when only one is, `none` when neither is usable. -/
noncomputable def getElbowAngle (landmarks : Frame ℝ) : Option ℝ :=
  let leftOk := isVisible (landmarks 11) && isVisible (landmarks 13) &&
    isVisible (landmarks 15)
  let rightOk := isVisible (landmarks 12) && isVisible (landmarks 14) &&
    isVisible (landmarks 16)
  if leftOk && rightOk then
    some ((calcAngle (landmarks 11) (landmarks 13) (landmarks 15) +
           calcAngle (landmarks 12) (landmarks 14) (landmarks 16)) / 2)
  else if leftOk then
    some (calcAngle (landmarks 11) (landmarks 13) (landmarks 15))
  else if rightOk then
    some (calcAngle (landmarks 12) (landmarks 14) (landmarks 16))
  else none

/-- 1 when the stage is DOWN, 0 when UP: the potential used to bound rep
counts by the number of below-threshold dips. -/
def stageBump : Stage → ℕ
  | Stage.down => 1
  | Stage.up => 0

/-- A frame whose right arm chain (shoulder 12, elbow 14, wrist 16), left
shoulder 11 and both hips 23/24 are clearly visible (0.9) but whose left
elbow 13 and left wrist 15 are not (0.1 < 0.35). -/
def c3Frame : Frame ℚ := fun i =>
  if i = 13 ∨ i = 15 then { x := 0, y := 1/2, visibility := some (1/10) }
  else { x := 0, y := 1/2, visibility := some (9/10) }

/-- A gate-passing frame delivered while awaiting lock (the raw angle and
timestamp are irrelevant on that path). -/
def passFrame : FrameInput := FrameInput.present true none 0

/-- A gate-failing frame delivered while awaiting lock. -/
def failFrame : FrameInput := FrameInput.present false none 0

/-- `BODY_READY_THRESHOLD - 1` passing frames followed by one failing
frame. -/
def c7AlmostLock : List FrameInput :=
  List.replicate (BODY_READY_THRESHOLD - 1) passFrame ++ [failFrame]

/-- `BODY_READY_THRESHOLD` consecutive passing frames. -/
def c7Lock : List FrameInput :=
  List.replicate BODY_READY_THRESHOLD passFrame

/-- A real-valued frame in which only the left arm chain is visible. -/
noncomputable def c8Frame : Frame ℝ := fun i =>
  if i = 11 ∨ i = 13 ∨ i = 15 then { x := 0, y := 0, visibility := some (9/10) }
  else { x := 0, y := 0, visibility := some 0 }

/-- A locked session in the DOWN stage whose cooldown has long expired
(used to witness the count-increment invariant). -/
def c10State : SessionState :=
  { count := 7, stage := Stage.down, bodyReady := true, bodyReadyFrames := 5,
    lastRepTime := 0, smoothAngle := 150, badFrameCount := 0 }

/-- A freshly locked session used to witness the smoothing update. -/
def c8State : SessionState :=
  { count := 0, stage := Stage.up, bodyReady := true, bodyReadyFrames := 5,
    lastRepTime := 0, smoothAngle := 160, badFrameCount := 0 }

/-- A locked session used to witness the bad-frame-streak behaviour. -/
def c6State : SessionState :=
  { count := 2, stage := Stage.up, bodyReady := true, bodyReadyFrames := 5,
    lastRepTime := 0, smoothAngle := 150, badFrameCount := 1 }

/-- A locked session sitting right at the bad-frame tolerance. -/
def c6StateSat : SessionState :=
  { count := 2, stage := Stage.up, bodyReady := true, bodyReadyFrames := 5,
    lastRepTime := 0, smoothAngle := 150, badFrameCount := 4 }

/-- A mid-band smoothed-angle sample stream (all values strictly between
the 110 down-threshold and the 145 up-threshold). -/
def c5Samples : List (ℚ × ℤ) :=
  [(120, 1000), (130, 2000), (140, 3000), (112, 4000), (144, 5000)]

/-- Helper: the two stages are distinct (used to evaluate the state
machine's `ite`s under `simp`). -/
theorem up_ne_down : Stage.up ≠ Stage.down := by decide

/-- Helper: the two stages are distinct, other direction. -/
theorem down_ne_up : Stage.down ≠ Stage.up := by decide

/-- **C1, counterexample.**  Locked, stage DOWN, smoothed angle 160 (above
`UP_ANGLE = 145`), last rep at t = 0 and the frame at t = 100, so only
100 ms ≤ 150 ms cooldown have elapsed: the claim says the stage still
transitions to UP, but the source flips `stageRef` only inside the cooldown
test (line 850), so the stage remains DOWN (and the count is unchanged). -/
theorem c1_counterexample :
    (processFrame c1State (FrameInput.present true (some 160) 100)).stage ≠
      Stage.up ∧
    (processFrame c1State (FrameInput.present true (some 160) 100)).stage =
      Stage.down ∧
    (processFrame c1State (FrameInput.present true (some 160) 100)).count = 3 := by
  norm_num [processFrame, lockedCount, repStep, c1State, SMOOTH_FACTOR,
    DOWN_ANGLE, UP_ANGLE, REP_COOLDOWN_MS, BAD_FRAME_TOLERANCE, up_ne_down,
    down_ne_up]

/-- **C1, amended.**  When the smoothed angle is above the up-threshold,
the stage is DOWN, but the cooldown has not elapsed, the rep state machine
leaves the state completely unchanged: the stage stays DOWN and no rep is
counted.  The UP transition happens only together with a counted rep. -/
theorem c1_amended (s : SessionState) (angle : ℚ) (now : ℤ)
    (hstage : s.stage = Stage.down) (hup : UP_ANGLE < angle)
    (hcool : ¬ REP_COOLDOWN_MS < now - s.lastRepTime) :
    repStep s angle now = s := by
  have hdown : ¬ angle < DOWN_ANGLE := by
    unfold DOWN_ANGLE; unfold UP_ANGLE at hup
    intro h; exact absurd (lt_trans h (by norm_num)) (not_lt.mpr hup.le)
  simp [repStep, hdown, hstage, hup, hcool]

/-- Witness for `c1_amended` at a concrete state. -/
theorem c1_amended_witness : repStep c1State 160 100 = c1State :=
  c1_amended c1State 160 100 (by decide) (by norm_num [UP_ANGLE]) (by decide)

/-- **C2, counterexample.**  A missing-landmarks frame while locked, with a
current bad-frame streak of 2: the claim says `badFrameStreak` is
incremented and nothing else changes, but the source (lines 731–736) leaves
`badFrameCount` at 2 and instead zeroes `bodyReadyFrames`. -/
theorem c2_counterexample :
    (processFrame c2State (FrameInput.missing 1000)).badFrameCount = 2 ∧
    (processFrame c2State (FrameInput.missing 1000)).bodyReadyFrames = 0 := by
  decide

/-- **C2, amended.**  Processing a missing-landmarks frame while locked
does not reset the locked phase and skips the frame for counting; it leaves
`badFrameCount` unchanged (it is *not* incremented) and resets
`bodyReadyFrames` (the lock streak) to 0; every other field is unchanged. -/
theorem c2_amended (s : SessionState) (now : ℤ) (h : s.bodyReady = true) :
    processFrame s (FrameInput.missing now) = { s with bodyReadyFrames := 0 } := by
  simp [processFrame, h]

/-- Witness for `c2_amended` at a concrete state. -/
theorem c2_amended_witness :
    processFrame c2State (FrameInput.missing 1000) =
      { c2State with bodyReadyFrames := 0 } :=
  c2_amended c2State 1000 (by decide)

/-- **C4.**  Feeding the smoothed-angle sequence
[160,150,120,95,100,140,150,160] (spec §8 scenario) through the rep state
machine from a freshly locked state (stage UP), with timestamps that never
violate the 150 ms cooldown, counts exactly one rep and ends with stage
UP. -/
theorem c4_scenario :
    (runReps c4Start c4Samples).count = 1 ∧
    (runReps c4Start c4Samples).stage = Stage.up := by
  norm_num [runReps, repStep, c4Start, c4Samples, DOWN_ANGLE, UP_ANGLE,
    REP_COOLDOWN_MS, up_ne_down, down_ne_up]

/-- **C3, counterexample.**  A frame with the full right arm chain
(shoulder 12, elbow 14, wrist 16), the left shoulder 11 and both hips
23/24 visible at 0.9, but the left elbow 13 and left wrist 15 at 0.1:
the claim says such a frame passes the visibility check, but the source's
`requiredParts` (lines 655–658) demands the LEFT elbow and LEFT wrist, so
the gate fails with the incomplete-body reason. -/
theorem c3_counterexample :
    (isInPushupPosition c3Frame).ok = false ∧
    (isInPushupPosition c3Frame).reason = some GateReason.incompleteBody ∧
    isVisible (c3Frame 12) = true ∧ isVisible (c3Frame 14) = true ∧
    isVisible (c3Frame 16) = true ∧ isVisible (c3Frame 11) = true ∧
    isVisible (c3Frame 23) = true ∧ isVisible (c3Frame 24) = true := by
  norm_num [isInPushupPosition, c3Frame, isVisible, visibilityValue]

/-- **C3, amended.**  The gate fails with reason `IncompleteBody` iff the
source's actual visibility requirement fails: both shoulders (11, 12), the
LEFT elbow (13), the LEFT wrist (15) and both hips (23, 24) visible above
threshold.  The right arm chain is irrelevant to this check, so a frame
missing the left elbow or wrist fails no matter how visible the right arm
is. -/
theorem c3_amended {α : Type} [LinearOrderedField α] (f : Frame α) :
    (isInPushupPosition f).reason = some GateReason.incompleteBody ↔
      ¬ (isVisible (f 11) = true ∧ isVisible (f 12) = true ∧
         isVisible (f 13) = true ∧ isVisible (f 15) = true ∧
         isVisible (f 23) = true ∧ isVisible (f 24) = true) := by
  simp only [isInPushupPosition, List.all_cons, List.all_nil, Bool.and_eq_true,
    Bool.and_true]
  split_ifs with h1 h2 h3 h4 <;> simp_all

/-- Witness for `c3_amended` at the concrete frame of the counterexample. -/
theorem c3_amended_witness :
    (isInPushupPosition c3Frame).reason = some GateReason.incompleteBody :=
  (c3_amended c3Frame).mpr (by norm_num [c3Frame, isVisible, visibilityValue])

/-- Helper: the rep state machine never touches `bodyReady`,
`bodyReadyFrames`, `smoothAngle`, `badFrameCount` or decreases `count`. -/
theorem repStep_frames (s : SessionState) (a : ℚ) (n : ℤ) :
    (repStep s a n).bodyReady = s.bodyReady ∧
    (repStep s a n).bodyReadyFrames = s.bodyReadyFrames ∧
    (repStep s a n).smoothAngle = s.smoothAngle ∧
    (repStep s a n).badFrameCount = s.badFrameCount := by
  simp only [repStep]
  split_ifs <;> simp

/-- Helper: `repStep` can only increase the count. -/
theorem repStep_count_mono (s : SessionState) (a : ℚ) (n : ℤ) :
    s.count ≤ (repStep s a n).count := by
  simp only [repStep]
  split_ifs <;> simp

/-- Helper: `repStep` increases the count by at most one. -/
theorem repStep_count_le (s : SessionState) (a : ℚ) (n : ℤ) :
    (repStep s a n).count ≤ s.count + 1 := by
  simp only [repStep]
  split_ifs <;> simp

/-- Helper: when `repStep` changes the count, the previous stage was DOWN,
the new stage is UP, and the count rose by exactly one. -/
theorem repStep_count_change (s : SessionState) (a : ℚ) (n : ℤ)
    (h : (repStep s a n).count ≠ s.count) :
    s.stage = Stage.down ∧ (repStep s a n).stage = Stage.up ∧
      (repStep s a n).count = s.count + 1 := by
  have hDU : DOWN_ANGLE < UP_ANGLE := by norm_num [DOWN_ANGLE, UP_ANGLE]
  simp only [repStep] at h ⊢
  by_cases h1 : a < DOWN_ANGLE
  · have hnu : ¬ UP_ANGLE < a := not_lt.mpr (lt_trans h1 hDU).le
    simp [h1, hnu] at h
  · simp only [if_neg h1] at h ⊢
    by_cases h2 : a > UP_ANGLE ∧ s.stage = Stage.down
    · by_cases h3 : REP_COOLDOWN_MS < n - s.lastRepTime
      · simp only [if_pos h2, if_pos h3] at h ⊢
        refine ⟨h2.2, ?_, ?_⟩ <;> simp
      · simp [h2, h3] at h
    · simp [h2] at h

/-- Helper: one rep step can raise `count + stageBump stage` by at most the
indicator of the angle dipping below the down-threshold. -/
theorem repStep_measure (s : SessionState) (a : ℚ) (n : ℤ) :
    (repStep s a n).count + stageBump (repStep s a n).stage ≤
      s.count + stageBump s.stage + (if a < DOWN_ANGLE then 1 else 0) := by
  cases hstage : s.stage <;>
    simp only [repStep, hstage] <;>
    split_ifs <;>
    simp_all [stageBump]

/-- Helper: `repStep` commutes with overwriting `badFrameCount`. -/
theorem repStep_badFrame_congr (s : SessionState) (k : ℕ) (a : ℚ) (n : ℤ) :
    repStep { s with badFrameCount := k } a n =
      { repStep s a n with badFrameCount := k } := by
  cases s
  simp only [repStep]
  split_ifs <;> rfl

/-- Helper: the counting tail never touches `badFrameCount` or
`bodyReady`. -/
theorem lockedCount_frames (s : SessionState) (raw : Option ℚ) (n : ℤ) :
    (lockedCount s raw n).badFrameCount = s.badFrameCount ∧
    (lockedCount s raw n).bodyReady = s.bodyReady ∧
    (lockedCount s raw n).bodyReadyFrames = s.bodyReadyFrames := by
  cases raw with
  | none => exact ⟨rfl, rfl, rfl⟩
  | some r =>
      simp only [lockedCount]
      obtain ⟨h1, h2, -, h3⟩ := repStep_frames
        { s with smoothAngle :=
            SMOOTH_FACTOR * s.smoothAngle + (1 - SMOOTH_FACTOR) * r }
        (SMOOTH_FACTOR * s.smoothAngle + (1 - SMOOTH_FACTOR) * r) n
      exact ⟨h3, h1, h2⟩

/-- Helper: the counting tail can only increase the count, by at most
one. -/
theorem lockedCount_count (s : SessionState) (raw : Option ℚ) (n : ℤ) :
    s.count ≤ (lockedCount s raw n).count ∧
      (lockedCount s raw n).count ≤ s.count + 1 := by
  cases raw with
  | none => simp [lockedCount]
  | some r =>
      constructor
      · simpa [lockedCount] using repStep_count_mono
          { s with smoothAngle :=
              SMOOTH_FACTOR * s.smoothAngle + (1 - SMOOTH_FACTOR) * r } _ n
      · simpa [lockedCount] using repStep_count_le
          { s with smoothAngle :=
              SMOOTH_FACTOR * s.smoothAngle + (1 - SMOOTH_FACTOR) * r } _ n

/-- Helper: when the counting tail changes the count, the stage went
DOWN → UP and the count rose by exactly one. -/
theorem lockedCount_count_change (s : SessionState) (raw : Option ℚ) (n : ℤ)
    (h : (lockedCount s raw n).count ≠ s.count) :
    s.stage = Stage.down ∧ (lockedCount s raw n).stage = Stage.up ∧
      (lockedCount s raw n).count = s.count + 1 := by
  cases raw with
  | none => simp [lockedCount] at h
  | some r =>
      simp only [lockedCount] at h ⊢
      exact repStep_count_change
        { s with smoothAngle :=
            SMOOTH_FACTOR * s.smoothAngle + (1 - SMOOTH_FACTOR) * r } _ n h

/-- Helper: the counting tail commutes with overwriting
`badFrameCount`. -/
theorem lockedCount_badFrame_congr (s : SessionState) (k : ℕ)
    (raw : Option ℚ) (n : ℤ) :
    lockedCount { s with badFrameCount := k } raw n =
      { lockedCount s raw n with badFrameCount := k } := by
  cases raw with
  | none => rfl
  | some r =>
      cases s with
      | mk cnt stg br fr lrt sm bad =>
          simp only [lockedCount]
          exact repStep_badFrame_congr
            { count := cnt, stage := stg, bodyReady := br,
              bodyReadyFrames := fr, lastRepTime := lrt,
              smoothAngle := SMOOTH_FACTOR * sm + (1 - SMOOTH_FACTOR) * r,
              badFrameCount := bad } k
            (SMOOTH_FACTOR * sm + (1 - SMOOTH_FACTOR) * r) n

/-- Helper: unfolding one step of the frame fold. -/
theorem runFrames_cons (s : SessionState) (f : FrameInput)
    (fs : List FrameInput) :
    runFrames s (f :: fs) = runFrames (processFrame s f) fs := rfl

/-- Helper: unfolding one step of the rep fold. -/
theorem runReps_cons (s : SessionState) (p : ℚ × ℤ) (fs : List (ℚ × ℤ)) :
    runReps s (p :: fs) = runReps (repStep s p.1 p.2) fs := rfl

/-- Helper: a mid-band sample (strictly between the thresholds) leaves the
state untouched. -/
theorem repStep_inband (s : SessionState) (a : ℚ) (n : ℤ)
    (h1 : DOWN_ANGLE < a) (h2 : a < UP_ANGLE) : repStep s a n = s := by
  have hd : ¬ a < DOWN_ANGLE := not_lt.mpr h1.le
  have hu : ¬ UP_ANGLE < a := not_lt.mpr h2.le
  simp [repStep, hd, hu]

/-- Helper: a whole mid-band sample stream leaves the state untouched. -/
theorem runReps_inband (s : SessionState) (fs : List (ℚ × ℤ))
    (h : ∀ p ∈ fs, DOWN_ANGLE < p.1 ∧ p.1 < UP_ANGLE) : runReps s fs = s := by
  induction fs generalizing s with
  | nil => rfl
  | cons p fs ih =>
      rw [runReps_cons,
        repStep_inband s p.1 p.2 (h p (by simp)).1 (h p (by simp)).2]
      exact ih s fun q hq => h q (by simp [hq])

/-- Helper: along any rep fold, `count + stageBump stage` rises at most by
the number of samples dipping below the down-threshold. -/
theorem runReps_measure (s : SessionState) (fs : List (ℚ × ℤ)) :
    (runReps s fs).count + stageBump (runReps s fs).stage ≤
      s.count + stageBump s.stage +
        (fs.filter fun p => p.1 < DOWN_ANGLE).length := by
  induction fs generalizing s with
  | nil => simp [runReps]
  | cons p fs ih =>
      have h1 := repStep_measure s p.1 p.2
      have h2 := ih (repStep s p.1 p.2)
      rw [runReps_cons]
      by_cases hp : p.1 < DOWN_ANGLE
      · simp only [if_pos hp] at h1
        simp only [List.filter_cons, hp, decide_true_eq_true, if_pos,
          List.length_cons]
        omega
      · simp only [if_neg hp] at h1
        simp only [List.filter_cons, hp]
        simp only [decide_eq_true_eq, hp, if_false]
        omega

/-- Helper: starting from stage UP, the count can rise by at most the
number of below-down-threshold samples. -/
theorem runReps_count_bound (s : SessionState) (fs : List (ℚ × ℤ))
    (hs : s.stage = Stage.up) :
    (runReps s fs).count ≤
      s.count + (fs.filter fun p => p.1 < DOWN_ANGLE).length := by
  have h := runReps_measure s fs
  rw [hs] at h
  simp only [stageBump] at h
  omega

/-- **C5.**  Hysteresis: (1) a smoothed-angle sample strictly between the
down- and up-thresholds changes nothing (stage, count, everything fixed);
(2) a whole stream of such mid-band samples changes nothing, whatever the
current stage; (3) starting from stage UP, the number of counted reps over
any sample stream is bounded by the number of samples that dip below the
down-threshold — so two increments always have an intervening drop below
the down-threshold: at most one rep per full down→up excursion. -/
theorem c5_hysteresis :
    (∀ (s : SessionState) (a : ℚ) (n : ℤ),
      DOWN_ANGLE < a → a < UP_ANGLE → repStep s a n = s) ∧
    (∀ (s : SessionState) (fs : List (ℚ × ℤ)),
      (∀ p ∈ fs, DOWN_ANGLE < p.1 ∧ p.1 < UP_ANGLE) → runReps s fs = s) ∧
    (∀ (s : SessionState) (fs : List (ℚ × ℤ)), s.stage = Stage.up →
      (runReps s fs).count ≤
        s.count + (fs.filter fun p => p.1 < DOWN_ANGLE).length) :=
  ⟨repStep_inband, runReps_inband, runReps_count_bound⟩

/-- Witness for `c5_hysteresis` on concrete mid-band data. -/
theorem c5_hysteresis_witness :
    runReps c4Start c5Samples = c4Start ∧
      (runReps c4Start c5Samples).count ≤
        c4Start.count + (c5Samples.filter fun p => p.1 < DOWN_ANGLE).length :=
  ⟨c5_hysteresis.2.1 c4Start c5Samples
      (by norm_num [c5Samples, DOWN_ANGLE, UP_ANGLE]),
    c5_hysteresis.2.2 c4Start c5Samples (by decide)⟩

/-- **C6.**  Bad-frame tolerance, after lock-in: (1) every gate-failing
frame increments `badFrameCount`; (2) every gate-passing frame resets it to
zero; (3) a failing frame whose incremented streak reaches
`BAD_FRAME_TOLERANCE` changes nothing but the streak — counting is
suspended and `bodyReady` is never reset; (4) a failing frame below
tolerance is processed exactly like a passing one apart from the streak, so
counting stays active; (5) a passing frame's outcome is independent of the
accumulated streak, so counting resumes on the next passing frame. -/
theorem c6_badFrameTolerance :
    (∀ (s : SessionState) (raw : Option ℚ) (now : ℤ), s.bodyReady = true →
      (processFrame s (FrameInput.present false raw now)).badFrameCount =
        s.badFrameCount + 1) ∧
    (∀ (s : SessionState) (raw : Option ℚ) (now : ℤ), s.bodyReady = true →
      (processFrame s (FrameInput.present true raw now)).badFrameCount = 0) ∧
    (∀ (s : SessionState) (raw : Option ℚ) (now : ℤ), s.bodyReady = true →
      BAD_FRAME_TOLERANCE ≤ s.badFrameCount + 1 →
      processFrame s (FrameInput.present false raw now) =
        { s with badFrameCount := s.badFrameCount + 1 }) ∧
    (∀ (s : SessionState) (raw : Option ℚ) (now : ℤ), s.bodyReady = true →
      s.badFrameCount + 1 < BAD_FRAME_TOLERANCE →
      processFrame s (FrameInput.present false raw now) =
        { processFrame s (FrameInput.present true raw now) with
            badFrameCount := s.badFrameCount + 1 }) ∧
    (∀ (s : SessionState) (k : ℕ) (raw : Option ℚ) (now : ℤ),
      s.bodyReady = true →
      processFrame { s with badFrameCount := k }
          (FrameInput.present true raw now) =
        processFrame s (FrameInput.present true raw now)) := by
  refine ⟨?_, ?_, ?_, ?_, ?_⟩
  · intro s raw now h
    simp only [processFrame, h]
    norm_num
    split_ifs with h1
    · rfl
    · rw [(lockedCount_frames _ raw now).1]
  · intro s raw now h
    simp only [processFrame, h]
    norm_num
    rw [(lockedCount_frames _ raw now).1]
  · intro s raw now h hge
    simp only [processFrame, h]
    norm_num
    intro hc
    exact absurd hge (by omega)
  · intro s raw now h hlt
    cases s with
    | mk cnt stg br fr lrt sm bad =>
        simp only [SessionState.bodyReady] at h
        subst h
        simp only [SessionState.badFrameCount, BAD_FRAME_TOLERANCE] at hlt
        simp only [processFrame]
        norm_num [BAD_FRAME_TOLERANCE]
        rw [if_neg (by omega : ¬ bad + 1 ≥ 5)]
        exact lockedCount_badFrame_congr
          { count := cnt, stage := stg, bodyReady := true,
            bodyReadyFrames := fr, lastRepTime := lrt, smoothAngle := sm,
            badFrameCount := 0 } (bad + 1) raw now
  · intro s k raw now h
    cases s
    simp only [SessionState.bodyReady] at h
    subst h
    simp only [processFrame]
    norm_num

/-- Witness for `c6_badFrameTolerance` at concrete locked states. -/
theorem c6_badFrameTolerance_witness :
    (processFrame c6State (FrameInput.present false none 0)).badFrameCount =
      c6State.badFrameCount + 1 ∧
    (processFrame c6State (FrameInput.present true none 0)).badFrameCount = 0 ∧
    processFrame c6StateSat (FrameInput.present false none 0) =
      { c6StateSat with badFrameCount := c6StateSat.badFrameCount + 1 } ∧
    processFrame c6State (FrameInput.present false none 0) =
      { processFrame c6State (FrameInput.present true none 0) with
          badFrameCount := c6State.badFrameCount + 1 } :=
  ⟨c6_badFrameTolerance.1 c6State none 0 rfl,
    c6_badFrameTolerance.2.1 c6State none 0 rfl,
    c6_badFrameTolerance.2.2.1 c6StateSat none 0 rfl (by decide),
    c6_badFrameTolerance.2.2.2.1 c6State none 0 rfl (by decide)⟩

/-- **C7.**  Lock-in: (1) while not locked, a gate-passing frame increments
`bodyReadyFrames`; (2) a gate-failing frame decrements it by exactly 1,
floored at 0 (truncated natural subtraction); (3) feeding
`BODY_READY_THRESHOLD - 1` passing frames and then a failing frame from a
fresh session never reaches the locked phase, at any prefix length;
(4) feeding `BODY_READY_THRESHOLD` consecutive passing frames locks, sets
the stage to UP and reseeds the smoother to the neutral 160. -/
theorem c7_lockIn :
    (∀ (s : SessionState) (raw : Option ℚ) (now : ℤ), s.bodyReady = false →
      (processFrame s (FrameInput.present true raw now)).bodyReadyFrames =
        s.bodyReadyFrames + 1) ∧
    (∀ (s : SessionState) (raw : Option ℚ) (now : ℤ), s.bodyReady = false →
      (processFrame s (FrameInput.present false raw now)).bodyReadyFrames =
        s.bodyReadyFrames - 1) ∧
    (∀ n : ℕ,
      (runFrames initialState (c7AlmostLock.take n)).bodyReady = false) ∧
    ((runFrames initialState c7Lock).bodyReady = true ∧
      (runFrames initialState c7Lock).stage = Stage.up ∧
      (runFrames initialState c7Lock).smoothAngle = 160) := by
  refine ⟨?_, ?_, ?_, ?_⟩
  · intro s raw now h
    simp only [processFrame, h]
    norm_num
    split_ifs <;> rfl
  · intro s raw now h
    simp only [processFrame, h]
    norm_num
  · intro n
    have hlen : c7AlmostLock.length = 5 := by decide
    rcases le_or_lt n 5 with hn | hn
    · interval_cases n <;> decide
    · rw [List.take_of_length_le (by omega)]
      decide
  · decide

/-- Witness for `c7_lockIn` at the fresh session state. -/
theorem c7_lockIn_witness :
    (processFrame initialState (FrameInput.present true none 0)).bodyReadyFrames =
      initialState.bodyReadyFrames + 1 ∧
    (processFrame initialState (FrameInput.present false none 0)).bodyReadyFrames =
      initialState.bodyReadyFrames - 1 :=
  ⟨c7_lockIn.1 initialState none 0 rfl, c7_lockIn.2.1 initialState none 0 rfl⟩

/-- **C10.**  Counting invariants of the session controller: (1) across any
frame stream the count never decreases; (2) a single frame raises it by at
most one; (3) any frame that changes the count was a DOWN → UP stage
transition that raised the count by exactly one — a rep is never counted
while the stage is already UP or stays DOWN. -/
theorem c10_invariants :
    (∀ (s : SessionState) (fs : List FrameInput),
      s.count ≤ (runFrames s fs).count) ∧
    (∀ (s : SessionState) (f : FrameInput),
      (processFrame s f).count ≤ s.count + 1) ∧
    (∀ (s : SessionState) (f : FrameInput),
      (processFrame s f).count ≠ s.count →
        s.stage = Stage.down ∧ (processFrame s f).stage = Stage.up ∧
          (processFrame s f).count = s.count + 1) := by
  have hmono : ∀ (s : SessionState) (f : FrameInput),
      s.count ≤ (processFrame s f).count := by
    intro s f
    cases f with
    | missing now =>
        simp only [processFrame]
        split_ifs <;> simp
    | present posOk raw now =>
        simp only [processFrame]
        split_ifs <;>
          first
            | simp
            | exact (lockedCount_count
                { s with badFrameCount := s.badFrameCount + 1 } raw now).1
            | exact (lockedCount_count
                { s with badFrameCount := 0 } raw now).1
  refine ⟨?_, ?_, ?_⟩
  · intro s fs
    induction fs generalizing s with
    | nil => exact le_refl _
    | cons f fs ih =>
        exact le_trans (hmono s f) (ih (processFrame s f))
  · intro s f
    cases f with
    | missing now =>
        simp only [processFrame]
        split_ifs <;> simp
    | present posOk raw now =>
        simp only [processFrame]
        split_ifs <;>
          first
            | simp
            | exact (lockedCount_count
                { s with badFrameCount := s.badFrameCount + 1 } raw now).2
            | exact (lockedCount_count
                { s with badFrameCount := 0 } raw now).2
  · intro s f h
    cases f with
    | missing now =>
        simp only [processFrame] at h ⊢
        split_ifs at h <;> simp at h
    | present posOk raw now =>
        simp only [processFrame] at h ⊢
        split_ifs at h ⊢ <;>
          (try simp at h) <;>
          exact lockedCount_count_change _ raw now h

/-- Witness for `c10_invariants`: a concrete frame that counts a rep is a
DOWN → UP transition raising the count by one. -/
theorem c10_invariants_witness :
    c10State.stage = Stage.down ∧
    (processFrame c10State (FrameInput.present true (some 160) 1000)).stage =
      Stage.up ∧
    (processFrame c10State (FrameInput.present true (some 160) 1000)).count =
      c10State.count + 1 :=
  c10_invariants.2.2 c10State (FrameInput.present true (some 160) 1000)
    (by norm_num [processFrame, lockedCount, repStep, c10State, SMOOTH_FACTOR,
      DOWN_ANGLE, UP_ANGLE, REP_COOLDOWN_MS, BAD_FRAME_TOLERANCE, up_ne_down,
      down_ne_up])

/-- **C8.**  Raw elbow angle and smoothing: (1) with both arm chains
visible the raw angle is the arithmetic mean of the two sides' angles;
(2) with only the left chain visible it is the left angle; (3) with only
the right chain visible it is the right angle; (4) with neither it is
undefined; (5) a frame without a raw angle does not advance the smoother
(nor the stage or count) on the tolerated locked path; (6) a frame with a
raw angle updates the smoother to exactly
`SMOOTH_FACTOR * previous + (1 - SMOOTH_FACTOR) * raw`. -/
theorem c8_rawAngle_smoothing :
    (∀ lm : Frame ℝ,
      (isVisible (lm 11) && isVisible (lm 13) && isVisible (lm 15)) = true →
      (isVisible (lm 12) && isVisible (lm 14) && isVisible (lm 16)) = true →
      getElbowAngle lm =
        some ((calcAngle (lm 11) (lm 13) (lm 15) +
               calcAngle (lm 12) (lm 14) (lm 16)) / 2)) ∧
    (∀ lm : Frame ℝ,
      (isVisible (lm 11) && isVisible (lm 13) && isVisible (lm 15)) = true →
      (isVisible (lm 12) && isVisible (lm 14) && isVisible (lm 16)) = false →
      getElbowAngle lm = some (calcAngle (lm 11) (lm 13) (lm 15))) ∧
    (∀ lm : Frame ℝ,
      (isVisible (lm 11) && isVisible (lm 13) && isVisible (lm 15)) = false →
      (isVisible (lm 12) && isVisible (lm 14) && isVisible (lm 16)) = true →
      getElbowAngle lm = some (calcAngle (lm 12) (lm 14) (lm 16))) ∧
    (∀ lm : Frame ℝ,
      (isVisible (lm 11) && isVisible (lm 13) && isVisible (lm 15)) = false →
      (isVisible (lm 12) && isVisible (lm 14) && isVisible (lm 16)) = false →
      getElbowAngle lm = none) ∧
    (∀ (s : SessionState) (posOk : Bool) (now : ℤ), s.bodyReady = true →
      (posOk = true ∨ s.badFrameCount + 1 < BAD_FRAME_TOLERANCE) →
      (processFrame s (FrameInput.present posOk none now)).smoothAngle =
          s.smoothAngle ∧
        (processFrame s (FrameInput.present posOk none now)).count = s.count ∧
        (processFrame s (FrameInput.present posOk none now)).stage =
          s.stage) ∧
    (∀ (s : SessionState) (posOk : Bool) (raw : ℚ) (now : ℤ),
      s.bodyReady = true →
      (posOk = true ∨ s.badFrameCount + 1 < BAD_FRAME_TOLERANCE) →
      (processFrame s (FrameInput.present posOk (some raw) now)).smoothAngle =
        SMOOTH_FACTOR * s.smoothAngle + (1 - SMOOTH_FACTOR) * raw) := by
  refine ⟨?_, ?_, ?_, ?_, ?_, ?_⟩
  · intro lm h1 h2
    simp [getElbowAngle, h1, h2]
  · intro lm h1 h2
    simp [getElbowAngle, h1, h2]
  · intro lm h1 h2
    simp [getElbowAngle, h1, h2]
  · intro lm h1 h2
    simp [getElbowAngle, h1, h2]
  · intro s posOk now h htol
    cases posOk with
    | false =>
        rcases htol with h' | h'
        · exact absurd h' (by simp)
        · simp only [BAD_FRAME_TOLERANCE] at h'
          simp only [processFrame, h]
          norm_num [BAD_FRAME_TOLERANCE]
          rw [if_neg (by omega : ¬ s.badFrameCount + 1 ≥ 5)]
          exact ⟨rfl, rfl, rfl⟩
    | true =>
        simp only [processFrame, h]
        norm_num
        exact ⟨rfl, rfl, rfl⟩
  · intro s posOk raw now h htol
    cases posOk with
    | false =>
        rcases htol with h' | h'
        · exact absurd h' (by simp)
        · simp only [BAD_FRAME_TOLERANCE] at h'
          simp only [processFrame, h]
          norm_num [BAD_FRAME_TOLERANCE]
          rw [if_neg (by omega : ¬ s.badFrameCount + 1 ≥ 5)]
          simp only [lockedCount]
          rw [(repStep_frames _ _ now).2.2.1]
    | true =>
        simp only [processFrame, h]
        norm_num
        simp only [lockedCount]
        rw [(repStep_frames _ _ now).2.2.1]

/-- Witness for `c8_rawAngle_smoothing`: the left-only frame yields the
left angle, and a concrete locked frame smooths 160 toward 100 as
`0.6 * 160 + 0.4 * 100`. -/
theorem c8_rawAngle_smoothing_witness :
    getElbowAngle c8Frame =
      some (calcAngle (c8Frame 11) (c8Frame 13) (c8Frame 15)) ∧
    (processFrame c8State (FrameInput.present true (some 100) 0)).smoothAngle =
      SMOOTH_FACTOR * c8State.smoothAngle + (1 - SMOOTH_FACTOR) * 100 :=
  ⟨c8_rawAngle_smoothing.2.1 c8Frame
      (by norm_num [c8Frame, isVisible, visibilityValue])
      (by norm_num [c8Frame, isVisible, visibilityValue]),
    c8_rawAngle_smoothing.2.2.2.2.2 c8State true 100 0 rfl (Or.inl rfl)⟩

/-- Helper: `calcAngle` with its two `let`s inlined. -/
theorem calcAngle_def (a b c : Landmark ℝ) :
    calcAngle a b c =
      if |(atan2 (c.y - b.y) (c.x - b.x) - atan2 (a.y - b.y) (a.x - b.x)) *
            180 / Real.pi| > 180 then
        360 -
          |(atan2 (c.y - b.y) (c.x - b.x) - atan2 (a.y - b.y) (a.x - b.x)) *
            180 / Real.pi|
      else
        |(atan2 (c.y - b.y) (c.x - b.x) - atan2 (a.y - b.y) (a.x - b.x)) *
          180 / Real.pi| := rfl

/-- Helper: atan2 takes values in `(-π, π]`. -/
theorem atan2_bounds (y x : ℝ) :
    -Real.pi < atan2 y x ∧ atan2 y x ≤ Real.pi :=
  ⟨Complex.neg_pi_lt_arg _, Complex.arg_le_pi _⟩

/-- Helper: a real in `(-2π, 2π)` equal as an angle to some `e ∈ [-π, π]`
is `e`, `e + 2π` or `e - 2π`. -/
theorem angle_coe_cases {d e : ℝ} (h : (d : Real.Angle) = (e : ℝ))
    (hd1 : -(2 * Real.pi) < d) (hd2 : d < 2 * Real.pi)
    (he1 : -Real.pi ≤ e) (he2 : e ≤ Real.pi) :
    d = e ∨ d = e + 2 * Real.pi ∨ d = e - 2 * Real.pi := by
  obtain ⟨k, hk⟩ := Real.Angle.angle_eq_iff_two_pi_dvd_sub.mp h
  have hπ := Real.pi_pos
  have hub : 2 * Real.pi * (k : ℝ) < 2 * Real.pi * 2 := by
    rw [← hk] at *
    nlinarith
  have hlb : 2 * Real.pi * (-2 : ℝ) < 2 * Real.pi * (k : ℝ) := by
    rw [← hk] at *
    nlinarith
  have hk2 : (k : ℝ) < 2 := lt_of_mul_lt_mul_left hub (by linarith)
  have hk3 : (-2 : ℝ) < (k : ℝ) := lt_of_mul_lt_mul_left hlb (by linarith)
  have hk2' : k < 2 := by exact_mod_cast hk2
  have hk3' : (-2 : ℤ) < k := by exact_mod_cast hk3
  interval_cases k
  · right; right
    push_cast at hk
    linarith
  · left
    push_cast at hk
    linarith
  · right; left
    push_cast at hk
    linarith

/-- Helper: when the atan2 difference equals `e ∈ [-π, π]` as an angle, the
folded degree value of `calcAngle` is `|e| · 180 / π`. -/
theorem calcAngle_eq_of_angle (a b c : Landmark ℝ) (e : ℝ)
    (he1 : -Real.pi ≤ e) (he2 : e ≤ Real.pi)
    (h : ((atan2 (c.y - b.y) (c.x - b.x) -
        atan2 (a.y - b.y) (a.x - b.x) : ℝ) : Real.Angle) = (e : ℝ)) :
    calcAngle a b c = |e| * 180 / Real.pi := by
  have hπ := Real.pi_pos
  obtain ⟨h1c, h2c⟩ := atan2_bounds (c.y - b.y) (c.x - b.x)
  obtain ⟨h1a, h2a⟩ := atan2_bounds (a.y - b.y) (a.x - b.x)
  rw [calcAngle_def]
  set d := atan2 (c.y - b.y) (c.x - b.x) - atan2 (a.y - b.y) (a.x - b.x)
    with hd
  have hd1 : -(2 * Real.pi) < d := by rw [hd]; linarith
  have hd2 : d < 2 * Real.pi := by rw [hd]; linarith
  have habs : ∀ r : ℝ, |r * 180 / Real.pi| = |r| * 180 / Real.pi := by
    intro r
    rw [abs_div, abs_mul, abs_of_pos hπ]
    norm_num
  rw [habs]
  rcases angle_coe_cases h hd1 hd2 he1 he2 with hcase | hcase | hcase
  · rw [hcase, if_neg]
    rw [not_lt]
    rw [div_le_iff₀ hπ]
    have : |e| ≤ Real.pi := abs_le.mpr ⟨he1, he2⟩
    nlinarith
  · have he0 : e < 0 := by rw [hcase] at hd2; linarith
    have hpos : 0 < e + 2 * Real.pi := by linarith
    rw [hcase, abs_of_pos hpos, abs_of_neg he0]
    by_cases hepi : e = -Real.pi
    · rw [if_neg]
      · rw [hepi]
        field_simp
        ring
      · rw [not_lt, hepi, div_le_iff₀ hπ]
        ring_nf
        nlinarith
    · have hegt : -Real.pi < e := lt_of_le_of_ne he1 (Ne.symm hepi)
      rw [if_pos]
      · field_simp
        ring
      · rw [gt_iff_lt, lt_div_iff₀ hπ]
        nlinarith
  · have he0 : 0 < e := by rw [hcase] at hd1; linarith
    have hneg : e - 2 * Real.pi < 0 := by linarith
    rw [hcase, abs_of_neg hneg, abs_of_pos he0]
    by_cases hepi : e = Real.pi
    · rw [if_neg]
      · rw [hepi]
        field_simp
        ring
      · rw [not_lt, hepi, div_le_iff₀ hπ]
        ring_nf
        nlinarith
    · have helt : e < Real.pi := lt_of_le_of_ne he2 hepi
      rw [if_pos]
      · field_simp
        ring
      · rw [gt_iff_lt, lt_div_iff₀ hπ]
        nlinarith

/-- Helper: `calcAngle` always lands in `[0, 180]`. -/
theorem calcAngle_range (a b c : Landmark ℝ) :
    0 ≤ calcAngle a b c ∧ calcAngle a b c ≤ 180 := by
  have hπ := Real.pi_pos
  obtain ⟨h1c, h2c⟩ := atan2_bounds (c.y - b.y) (c.x - b.x)
  obtain ⟨h1a, h2a⟩ := atan2_bounds (a.y - b.y) (a.x - b.x)
  rw [calcAngle_def]
  set d := atan2 (c.y - b.y) (c.x - b.x) - atan2 (a.y - b.y) (a.x - b.x)
    with hd
  have hd3 : |d| < 2 * Real.pi := by
    rw [abs_lt]
    constructor <;> [rw [hd]; rw [hd]] <;> linarith
  have habs : |d * 180 / Real.pi| = |d| * 180 / Real.pi := by
    rw [abs_div, abs_mul, abs_of_pos hπ]
    norm_num
  rw [habs]
  have hlt : |d| * 180 / Real.pi < 360 := by
    rw [div_lt_iff₀ hπ]
    nlinarith
  have hnn : 0 ≤ |d| * 180 / Real.pi := by positivity
  split_ifs with hgt
  · constructor <;> linarith
  · exact ⟨hnn, not_lt.mp hgt⟩

/-- Helper: real part of a complex literal. -/
theorem cmk_re (x y : ℝ) : (⟨x, y⟩ : ℂ).re = x := rfl

/-- Helper: imaginary part of a complex literal. -/
theorem cmk_im (x y : ℝ) : (⟨x, y⟩ : ℂ).im = y := rfl

/-- Helper: for any nondegenerate perpendicular configuration at the
vertex, `calcAngle` is exactly 90. -/
theorem calcAngle_right_angle (a b c : Landmark ℝ)
    (ha : ¬(a.x = b.x ∧ a.y = b.y)) (hc : ¬(c.x = b.x ∧ c.y = b.y))
    (hperp : (a.x - b.x) * (c.x - b.x) + (a.y - b.y) * (c.y - b.y) = 0) :
    calcAngle a b c = 90 := by
  have hπ := Real.pi_pos
  have hu : (⟨a.x - b.x, a.y - b.y⟩ : ℂ) ≠ 0 := by
    intro h0
    rw [Complex.ext_iff] at h0
    exact ha ⟨sub_eq_zero.mp h0.1, sub_eq_zero.mp h0.2⟩
  have hv : (⟨c.x - b.x, c.y - b.y⟩ : ℂ) ≠ 0 := by
    intro h0
    rw [Complex.ext_iff] at h0
    exact hc ⟨sub_eq_zero.mp h0.1, sub_eq_zero.mp h0.2⟩
  have hnsq : 0 < Complex.normSq (⟨a.x - b.x, a.y - b.y⟩ : ℂ) :=
    Complex.normSq_pos.mpr hu
  have hscaled :
      (↑(Complex.normSq (⟨a.x - b.x, a.y - b.y⟩ : ℂ)) : ℂ) *
          (⟨c.x - b.x, c.y - b.y⟩ : ℂ) =
        ↑((a.x - b.x) * (c.y - b.y) - (a.y - b.y) * (c.x - b.x)) *
          Complex.I * (⟨a.x - b.x, a.y - b.y⟩ : ℂ) := by
    refine Complex.ext ?_ ?_
    · simp only [Complex.mul_re, Complex.mul_im, Complex.I_re, Complex.I_im,
        Complex.ofReal_re, Complex.ofReal_im, cmk_re, cmk_im,
        Complex.normSq_mk]
      linear_combination (a.x - b.x) * hperp
    · simp only [Complex.mul_re, Complex.mul_im, Complex.I_re, Complex.I_im,
        Complex.ofReal_re, Complex.ofReal_im, cmk_re, cmk_im,
        Complex.normSq_mk]
      linear_combination (a.y - b.y) * hperp
  have hcross : (a.x - b.x) * (c.y - b.y) - (a.y - b.y) * (c.x - b.x) ≠ 0 := by
    intro h0
    rw [h0] at hscaled
    simp only [Complex.ofReal_zero, zero_mul] at hscaled
    rcases mul_eq_zero.mp hscaled with h1 | h1
    · exact Complex.ofReal_ne_zero.mpr (ne_of_gt hnsq) h1
    · exact hv h1
  have hargv : Complex.arg (⟨c.x - b.x, c.y - b.y⟩ : ℂ) =
      Complex.arg
        (↑((a.x - b.x) * (c.y - b.y) - (a.y - b.y) * (c.x - b.x)) *
          Complex.I * (⟨a.x - b.x, a.y - b.y⟩ : ℂ)) := by
    rw [← hscaled, Complex.arg_real_mul _ hnsq]
  have e1 : atan2 (c.y - b.y) (c.x - b.x) =
      Complex.arg (⟨c.x - b.x, c.y - b.y⟩ : ℂ) := rfl
  have e2 : atan2 (a.y - b.y) (a.x - b.x) =
      Complex.arg (⟨a.x - b.x, a.y - b.y⟩ : ℂ) := rfl
  rcases lt_or_gt_of_ne hcross with hneg | hpos
  · have heq2 :
        (↑((a.x - b.x) * (c.y - b.y) - (a.y - b.y) * (c.x - b.x)) *
            Complex.I : ℂ) =
          ↑(-((a.x - b.x) * (c.y - b.y) - (a.y - b.y) * (c.x - b.x))) *
            -Complex.I := by
      push_cast
      ring
    rw [heq2] at hargv
    have hx0 :
        (↑(-((a.x - b.x) * (c.y - b.y) - (a.y - b.y) * (c.x - b.x))) *
            -Complex.I : ℂ) ≠ 0 :=
      mul_ne_zero (Complex.ofReal_ne_zero.mpr (by linarith))
        (neg_ne_zero.mpr Complex.I_ne_zero)
    have hsplit := Complex.arg_mul_coe_angle hx0 hu
    rw [Complex.arg_real_mul (-Complex.I) (by linarith), Complex.arg_neg_I]
      at hsplit
    have hkey : ((atan2 (c.y - b.y) (c.x - b.x) -
        atan2 (a.y - b.y) (a.x - b.x) : ℝ) : Real.Angle) =
          ((-(Real.pi / 2) : ℝ) : Real.Angle) := by
      rw [e1, e2, hargv, Real.Angle.coe_sub, hsplit]
      abel
    have hfin := calcAngle_eq_of_angle a b c (-(Real.pi / 2))
      (by linarith) (by linarith) hkey
    rw [hfin, abs_neg, abs_of_pos (by linarith : (0:ℝ) < Real.pi / 2)]
    field_simp
    ring
  · have hx0 :
        (↑((a.x - b.x) * (c.y - b.y) - (a.y - b.y) * (c.x - b.x)) *
            Complex.I : ℂ) ≠ 0 :=
      mul_ne_zero (Complex.ofReal_ne_zero.mpr (ne_of_gt hpos))
        Complex.I_ne_zero
    have hsplit := Complex.arg_mul_coe_angle hx0 hu
    rw [Complex.arg_real_mul Complex.I hpos, Complex.arg_I] at hsplit
    have hkey : ((atan2 (c.y - b.y) (c.x - b.x) -
        atan2 (a.y - b.y) (a.x - b.x) : ℝ) : Real.Angle) =
          ((Real.pi / 2 : ℝ) : Real.Angle) := by
      rw [e1, e2, hargv, Real.Angle.coe_sub, hsplit]
      abel
    have hfin := calcAngle_eq_of_angle a b c (Real.pi / 2)
      (by linarith) (by linarith) hkey
    rw [hfin, abs_of_pos (by linarith : (0:ℝ) < Real.pi / 2)]
    field_simp
    ring

/-- Helper: for collinear points with `b` strictly between `a` and `c`,
`calcAngle` is exactly 180. -/
theorem calcAngle_collinear (a b c : Landmark ℝ)
    (hac : ¬(a.x = c.x ∧ a.y = c.y))
    (hbet : ∃ t : ℝ, 0 < t ∧ t < 1 ∧ b.x = a.x + t * (c.x - a.x) ∧
      b.y = a.y + t * (c.y - a.y)) :
    calcAngle a b c = 180 := by
  obtain ⟨t, ht0, ht1, hbx, hby⟩ := hbet
  have hπ := Real.pi_pos
  have hz : (⟨c.x - a.x, c.y - a.y⟩ : ℂ) ≠ 0 := by
    intro h0
    rw [Complex.ext_iff] at h0
    exact hac ⟨(sub_eq_zero.mp h0.1).symm, (sub_eq_zero.mp h0.2).symm⟩
  have hu_eq : (⟨a.x - b.x, a.y - b.y⟩ : ℂ) =
      ↑t * -(⟨c.x - a.x, c.y - a.y⟩ : ℂ) := by
    refine Complex.ext ?_ ?_ <;>
      simp only [Complex.mul_re, Complex.mul_im, Complex.neg_re,
        Complex.neg_im, Complex.ofReal_re, Complex.ofReal_im, cmk_re,
        cmk_im] <;>
      simp only [hbx, hby] <;>
      ring
  have hv_eq : (⟨c.x - b.x, c.y - b.y⟩ : ℂ) =
      ↑(1 - t) * (⟨c.x - a.x, c.y - a.y⟩ : ℂ) := by
    refine Complex.ext ?_ ?_ <;>
      simp only [Complex.mul_re, Complex.mul_im, Complex.ofReal_re,
        Complex.ofReal_im, cmk_re, cmk_im] <;>
      simp only [hbx, hby] <;>
      ring
  have hargu : Complex.arg (⟨a.x - b.x, a.y - b.y⟩ : ℂ) =
      Complex.arg (-(⟨c.x - a.x, c.y - a.y⟩ : ℂ)) := by
    rw [hu_eq]
    exact Complex.arg_real_mul _ ht0
  have hargv : Complex.arg (⟨c.x - b.x, c.y - b.y⟩ : ℂ) =
      Complex.arg (⟨c.x - a.x, c.y - a.y⟩ : ℂ) := by
    rw [hv_eq]
    exact Complex.arg_real_mul _ (by linarith)
  have e1 : atan2 (c.y - b.y) (c.x - b.x) =
      Complex.arg (⟨c.x - b.x, c.y - b.y⟩ : ℂ) := rfl
  have e2 : atan2 (a.y - b.y) (a.x - b.x) =
      Complex.arg (⟨a.x - b.x, a.y - b.y⟩ : ℂ) := rfl
  have hkey : ((atan2 (c.y - b.y) (c.x - b.x) -
      atan2 (a.y - b.y) (a.x - b.x) : ℝ) : Real.Angle) =
        ((-Real.pi : ℝ) : Real.Angle) := by
    rw [e1, e2, hargu, hargv, Real.Angle.coe_sub,
      Complex.arg_neg_coe_angle hz, Real.Angle.coe_neg]
    abel
  have hfin := calcAngle_eq_of_angle a b c (-Real.pi) (le_refl _)
    (by linarith) hkey
  rw [hfin, abs_neg, abs_of_pos hπ]
  field_simp

/-- **C9.**  The angle function: (1) it is the absolute atan2 bearing
difference in degrees folded into `[0, 180]` by subtracting from 360 when
above 180; (2) its result always lies in `[0, 180]`, for all finite
inputs; (3) it returns exactly 90 for any three points forming a right
angle at `b` (perpendicular, nondegenerate rays); (4) it returns exactly
180 for collinear points with `b` strictly between `a` and `c`. -/
theorem c9_angleBetween :
    (∀ a b c : Landmark ℝ, calcAngle a b c =
      if |(atan2 (c.y - b.y) (c.x - b.x) - atan2 (a.y - b.y) (a.x - b.x)) *
            180 / Real.pi| > 180 then
        360 -
          |(atan2 (c.y - b.y) (c.x - b.x) - atan2 (a.y - b.y) (a.x - b.x)) *
            180 / Real.pi|
      else
        |(atan2 (c.y - b.y) (c.x - b.x) - atan2 (a.y - b.y) (a.x - b.x)) *
          180 / Real.pi|) ∧
    (∀ a b c : Landmark ℝ, 0 ≤ calcAngle a b c ∧ calcAngle a b c ≤ 180) ∧
    (∀ a b c : Landmark ℝ,
      ¬(a.x = b.x ∧ a.y = b.y) → ¬(c.x = b.x ∧ c.y = b.y) →
      (a.x - b.x) * (c.x - b.x) + (a.y - b.y) * (c.y - b.y) = 0 →
      calcAngle a b c = 90) ∧
    (∀ a b c : Landmark ℝ, ¬(a.x = c.x ∧ a.y = c.y) →
      (∃ t : ℝ, 0 < t ∧ t < 1 ∧ b.x = a.x + t * (c.x - a.x) ∧
        b.y = a.y + t * (c.y - a.y)) →
      calcAngle a b c = 180) :=
  ⟨calcAngle_def, calcAngle_range, calcAngle_right_angle, calcAngle_collinear⟩

/-- Witness for `c9_angleBetween`: a concrete right angle at the origin
gives 90, and the origin strictly between `(-1, 0)` and `(2, 0)` gives
180. -/
theorem c9_angleBetween_witness :
    calcAngle { x := 1, y := 0, visibility := none }
        { x := 0, y := 0, visibility := none }
        { x := 0, y := 2, visibility := none } = 90 ∧
    calcAngle { x := -1, y := 0, visibility := none }
        { x := 0, y := 0, visibility := none }
        { x := 2, y := 0, visibility := none } = 180 ∧
    0 ≤ calcAngle { x := 3, y := 5, visibility := none }
        { x := 7, y := 11, visibility := none }
        { x := 13, y := 2, visibility := none } ∧
    calcAngle { x := 3, y := 5, visibility := none }
        { x := 7, y := 11, visibility := none }
        { x := 13, y := 2, visibility := none } ≤ 180 :=
  ⟨c9_angleBetween.2.2.1 _ _ _ (by norm_num) (by norm_num) (by norm_num),
    c9_angleBetween.2.2.2 _ _ _ (by norm_num)
      ⟨1/3, by norm_num, by norm_num, by norm_num, by norm_num⟩,
    (c9_angleBetween.2.1 _ _ _).1,
    (c9_angleBetween.2.1 _ _ _).2⟩

end Pushup
